import Mathlib

/-!
Shallow embedding of the libnetwork controller (src/controller.go).

Go maps are modelled as association lists with Go map semantics
(lookup, overwrite-on-insert, delete).  The external collaborators
(network drivers, the sandbox provider) are modelled by their observable
results: a driver is a pair of result functions, and the result of the
provider call sandbox.NewSandbox(key) is passed to sandboxAdd as an
explicit argument.  Calls into collaborators are recorded in an event
trace so that facts such as "the provider was invoked exactly once" or
"the CreateNetwork hook was not called" are statable.

The crucial source detail kept by the embedding: sandboxTable is
map[string]sandboxData with sandboxData held BY VALUE, so in the Go code
sData.refCnt++ (controller.go line 210) and sData.refCnt-- (line 219)
mutate a local copy that is never stored back into the map.
-/

set_option autoImplicit false

namespace Libnetwork

/-- UUIDs are opaque strings (types.UUID in the source). -/
abbrev UUID := String

/-- Opaque configuration payload (interface\x7b\x7d options in the source). -/
abbrev Options := Nat

/-- Errors returned by the controller and its collaborators.  Driver and
provider originated errors are opaque; an index distinguishes them. -/
inductive GoError where
  | networkTypeError (networkType : String)
  | errInvalidNetworkDriver
  | networkNameError (name : String)
  | driverError (code : Nat)
  | sandboxError (code : Nat)
deriving DecidableEq

/-- A sandbox handle returned by the external provider; identity is an
opaque number. -/
structure Sandbox where
  nsId : Nat
deriving DecidableEq

/-- A network driver, modelled by the results of its two hooks used in
the source excerpt: Config and CreateNetwork.  none models a nil error. -/
structure Driver where
  configRes : Options → Option GoError
  createNetworkRes : UUID → Options → Option GoError

/-- The network entity of the source: name, id, resolved driver (kept as
its registered type name) and the endpoint table, empty at construction.
The ctrlr back reference of the source is a pointer to the owning
controller and is not representable in a value model; no claim uses it. -/
structure Network where
  name : String
  id : UUID
  driverType : String
  endpoints : List UUID
deriving DecidableEq

/-- sandboxData of the source: the sandbox interface value (nil is none)
and the reference count.  Go int is modelled as Int. -/
structure SandboxData where
  sandbox : Option Sandbox
  refCnt : Int
deriving DecidableEq

/-- Calls into external collaborators, recorded for observability. -/
inductive Event where
  | configCalled (networkType : String) (o : Options)
  | createNetworkCalled (networkType : String) (id : UUID) (o : Options)
  | newSandboxCalled (key : String)
  | destroyCalled (sb : Option Sandbox)
deriving DecidableEq

/-- Go map lookup on an association list. -/
def mapLookup {α : Type} (k : String) : List (String × α) → Option α
  | [] => none
  | (k2, v) :: t => if k = k2 then some v else mapLookup k t

/-- Go map insertion: overwrite the entry if the key is present,
otherwise add a fresh entry. -/
def mapInsert {α : Type} (k : String) (v : α) : List (String × α) → List (String × α)
  | [] => [(k, v)]
  | (k2, v2) :: t => if k = k2 then (k, v) :: t else (k2, v2) :: mapInsert k v t

/-- Go map deletion. -/
def mapErase {α : Type} (k : String) : List (String × α) → List (String × α)
  | [] => []
  | (k2, v2) :: t => if k = k2 then t else (k2, v2) :: mapErase k t

/-- The controller state: network table, driver table, sandbox table
(controller.go lines 86 to 91).  The mutex serialises access in Go; in
the sequential model every operation is already atomic. -/
structure Controller where
  networks : List (UUID × Network)
  drivers : List (String × Driver)
  sandboxes : List (String × SandboxData)

/-- ConfigureNetworkDriver (controller.go lines 98 to 104): resolve the
driver for the network type, NetworkTypeError if absent, otherwise
forward the options to the driver Config hook and return its result. -/
def ConfigureNetworkDriver (c : Controller) (networkType : String) (o : Options) :
    Option GoError × List Event :=
  match mapLookup networkType c.drivers with
  | none => (some (GoError.networkTypeError networkType), [])
  | some d => (d.configRes o, [Event.configCalled networkType o])

/-- NewNetwork (controller.go lines 108 to 145).  The randomly generated
id (stringid.GenerateRandomID) is an external input, passed as genId.
Returns the (Network, error) pair of the source, the new controller
state and the trace of collaborator calls. -/
def NewNetwork (c : Controller) (networkType name : String) (o : Options) (genId : UUID) :
    (Option Network × Option GoError) × Controller × List Event :=
  match mapLookup networkType c.drivers with
  | none => ((none, some GoError.errInvalidNetworkDriver), c, [])
  | some d =>
    if c.networks.any (fun p => p.2.name = name) then
      ((none, some (GoError.networkNameError name)), c, [])
    else
      let nw : Network := ⟨name, genId, networkType, []⟩
      match d.createNetworkRes genId o with
      | some e => ((none, some e), c, [Event.createNetworkCalled networkType genId o])
      | none =>
        ((some nw, none),
         { c with networks := mapInsert genId nw c.networks },
         [Event.createNetworkCalled networkType genId o])

/-- Networks (controller.go lines 147 to 157): a fresh list holding the
values of the network table at call time. -/
def Networks (c : Controller) : List Network :=
  c.networks.map Prod.snd

/-- The sequence of networks on which WalkNetworks invokes the walker:
each visited network is recorded, and the walk stops right after the
first network for which the walker returns true. -/
def walkVisits (walker : Network → Bool) : List Network → List Network
  | [] => []
  | n :: t => if walker n then [n] else n :: walkVisits walker t

/-- WalkNetworks (controller.go lines 159 to 165): iterate the snapshot
produced by Networks, stopping when the walker returns true.  The Go
function returns nothing; its observable behaviour is the sequence of
walker invocations, which this model returns. -/
def WalkNetworks (c : Controller) (walker : Network → Bool) : List Network :=
  walkVisits walker (Networks c)

/-- NetworkByID (controller.go lines 185 to 192): direct map lookup,
nil (none) when absent. -/
def NetworkByID (c : Controller) (id : String) : Option Network :=
  mapLookup id c.networks

/-- sandboxAdd (controller.go lines 194 to 212).  providerRes is the
(sandbox, error) pair that the external call sandbox.NewSandbox(key)
would return for this invocation.  When the key is absent: on provider
error return it without storing; otherwise store refCnt 1 and return the
new sandbox.  When the key is present the source increments refCnt on a
local COPY of the table entry (value semantics of the map) and returns
the stored sandbox: the table is left unchanged. -/
def sandboxAdd (c : Controller) (key : String) (providerRes : Option Sandbox × Option GoError) :
    (Option Sandbox × Option GoError) × Controller × List Event :=
  match mapLookup key c.sandboxes with
  | none =>
    match providerRes with
    | (_, some e) => ((none, some e), c, [Event.newSandboxCalled key])
    | (sb, none) =>
      let sData : SandboxData := ⟨sb, 1⟩
      ((sData.sandbox, none),
       { c with sandboxes := mapInsert key sData c.sandboxes },
       [Event.newSandboxCalled key])
  | some sData =>
    let sData2 : SandboxData := ⟨sData.sandbox, sData.refCnt + 1⟩
    ((sData2.sandbox, none), c, [])

/-- sandboxRm (controller.go lines 214 to 225).  Indexing a missing key
yields the zero value (nil sandbox, refCnt 0).  The decrement acts on a
local copy; only when that copy reaches exactly 0 is Destroy called and
the entry deleted. -/
def sandboxRm (c : Controller) (key : String) : Controller × List Event :=
  let sData : SandboxData := (mapLookup key c.sandboxes).getD ⟨none, 0⟩
  let sData2 : SandboxData := ⟨sData.sandbox, sData.refCnt - 1⟩
  if sData2.refCnt = 0 then
    ({ c with sandboxes := mapErase key c.sandboxes },
     [Event.destroyCalled sData2.sandbox])
  else
    (c, [])

/-- sandboxGet (controller.go lines 227 to 237): lookup without any
refcount change. -/
def sandboxGet (c : Controller) (key : String) : Option Sandbox :=
  match mapLookup key c.sandboxes with
  | none => none
  | some sData => sData.sandbox

/-- N successive sandboxAdd calls for the same key with the same
provider behaviour: final state, concatenated event trace, and the list
of (sandbox, error) results the calls returned, in call order. -/
def sandboxAddN (c : Controller) (key : String)
    (providerRes : Option Sandbox × Option GoError) :
    Nat → Controller × List Event × List (Option Sandbox × Option GoError)
  | 0 => (c, [], [])
  | Nat.succ n =>
    match sandboxAdd c key providerRes with
    | (res, c1, evs) =>
      match sandboxAddN c1 key providerRes n with
      | (cf, evsRest, results) => (cf, evs ++ evsRest, res :: results)

/-- One NewNetwork invocation in a trace: its arguments together with
the externally generated id consumed by that call. -/
structure NNCall where
  networkType : String
  name : String
  opts : Options
  genId : UUID

/-- Run a sequence of NewNetwork calls; return the final controller
state and the association of returned network ids to the returned
networks, for the successful calls only. -/
def runNN (c : Controller) : List NNCall → Controller × List (UUID × Network)
  | [] => (c, [])
  | call :: rest =>
    match NewNetwork c call.networkType call.name call.opts call.genId with
    | ((nwRes, _), c1, _) =>
      match runNN c1 rest with
      | (cf, rets) =>
        (cf, (match nwRes with | some nw => [(nw.id, nw)] | none => []) ++ rets)

/-! Concrete fixtures used by the closed theorems and the witnesses. -/

/-- A driver whose hooks always succeed (the null driver of the spec). -/
def nullDriver : Driver := ⟨fun _ => none, fun _ _ => none⟩

/-- A driver whose hooks always fail, with distinguishable opaque errors. -/
def failDriver : Driver :=
  ⟨fun _ => some (GoError.driverError 7), fun _ _ => some (GoError.driverError 9)⟩

/-! Helper lemmas on the Go map model. -/

theorem mapLookup_mapInsert {α : Type} (a k : String) (v : α) (m : List (String × α)) :
    mapLookup a (mapInsert k v m) = if a = k then some v else mapLookup a m := by
  induction m with
  | nil => by_cases h : a = k <;> simp [mapInsert, mapLookup, h]
  | cons p t ih =>
    obtain ⟨k2, v2⟩ := p
    by_cases hk : k = k2
    · subst hk
      by_cases ha : a = k <;> simp [mapInsert, mapLookup, ha]
    · by_cases ha : a = k2
      · subst ha
        have hak : ¬a = k := fun h => hk h.symm
        simp [mapInsert, mapLookup, hk, hak]
      · simp [mapInsert, mapLookup, hk, ha, ih]

theorem mapInsert_fresh {α : Type} (k : String) (v : α) (m : List (String × α))
    (h : mapLookup k m = none) : mapInsert k v m = m ++ [(k, v)] := by
  induction m with
  | nil => simp [mapInsert]
  | cons p t ih =>
    obtain ⟨k2, v2⟩ := p
    by_cases hk : k = k2
    · simp [mapLookup, hk] at h
    · simp [mapLookup, hk] at h
      simp [mapInsert, hk, ih h]

theorem mem_map_snd {α β : Type} (x : β) (l : List (α × β)) :
    x ∈ l.map Prod.snd ↔ ∃ id, (id, x) ∈ l := by
  constructor
  · intro hx
    rcases List.mem_map.1 hx with ⟨p, hp, hpx⟩
    exact ⟨p.1, by rwa [show (p.1, x) = p from by rw [← hpx]]⟩
  · rintro ⟨id, hid⟩
    exact List.mem_map.2 ⟨(id, x), hid, rfl⟩

/-! Theorems for the claims. -/

/-- C10: ConfigureNetworkDriver on an unregistered type fails with the
unknown driver type error (NetworkTypeError) without calling any driver;
on a registered type it forwards the options to the Config hook of that
driver and returns the driver result unwrapped, including none (nil) on
driver success. -/
theorem configureNetworkDriver_spec (c : Controller) (t : String) (o : Options) :
    (mapLookup t c.drivers = none →
      ConfigureNetworkDriver c t o = (some (GoError.networkTypeError t), [])) ∧
    (∀ d : Driver, mapLookup t c.drivers = some d →
      ConfigureNetworkDriver c t o = (d.configRes o, [Event.configCalled t o])) := by
  constructor
  · intro h
    simp [ConfigureNetworkDriver, h]
  · intro d h
    simp [ConfigureNetworkDriver, h]

/-- Witness for C10 at a concrete controller: the registered null driver
is invoked and its nil result is returned unwrapped. -/
theorem configureNetworkDriver_spec_witness :
    ConfigureNetworkDriver ⟨[], [("null", nullDriver)], []⟩ "null" 0 =
      (none, [Event.configCalled "null" 0]) :=
  (configureNetworkDriver_spec ⟨[], [("null", nullDriver)], []⟩ "null" 0).2 nullDriver rfl

/-- C3: when the key already has a table entry, sandboxAdd returns the
stored sandbox with no error, records no provider call, and leaves the
whole controller state, in particular the stored reference count,
unchanged: the increment of the source acts on a local copy of the value
stored in the map and is never written back. -/
theorem sandboxAdd_existing_frame (c : Controller) (k : String)
    (pr : Option Sandbox × Option GoError) (sd : SandboxData)
    (h : mapLookup k c.sandboxes = some sd) :
    sandboxAdd c k pr = ((sd.sandbox, none), c, []) := by
  simp [sandboxAdd, h]

/-- Witness for C3: a controller with a stored entry of refcount 1 is
returned unchanged by a further sandboxAdd. -/
theorem sandboxAdd_existing_frame_witness :
    sandboxAdd ⟨[], [], [("k", ⟨some ⟨0⟩, 1⟩)]⟩ "k" (some ⟨5⟩, none) =
      ((some ⟨0⟩, none), ⟨[], [], [("k", ⟨some ⟨0⟩, 1⟩)]⟩, []) :=
  sandboxAdd_existing_frame ⟨[], [], [("k", ⟨some ⟨0⟩, 1⟩)]⟩ "k" (some ⟨5⟩, none)
    ⟨some ⟨0⟩, 1⟩ rfl

/-- C6: sandboxRm on a key with no table entry is a safe no-op: the
controller state is returned unchanged (no entry of any key removed, no
negative refcount stored) and no Destroy call happens.  The zero valued
copy is decremented to -1, which never triggers the destroy branch. -/
theorem sandboxRm_missing_noop (c : Controller) (k : String)
    (h : mapLookup k c.sandboxes = none) :
    sandboxRm c k = (c, []) := by
  simp [sandboxRm, h]

/-- Witness for C6: removing an absent key from a controller that holds
an unrelated entry changes nothing. -/
theorem sandboxRm_missing_noop_witness :
    sandboxRm ⟨[], [], [("other", ⟨some ⟨3⟩, 1⟩)]⟩ "k" =
      (⟨[], [], [("other", ⟨some ⟨3⟩, 1⟩)]⟩, []) :=
  sandboxRm_missing_noop ⟨[], [], [("other", ⟨some ⟨3⟩, 1⟩)]⟩ "k" rfl

/-- C4: when the requested type is registered and some registered
network already has the requested name, NewNetwork fails with
NetworkNameError (the duplicate name error), does not invoke the
CreateNetwork hook (empty event trace), and leaves the controller, in
particular the network table, unchanged. -/
theorem newNetwork_duplicateName (c : Controller) (t n : String) (o : Options)
    (g : UUID) (d : Driver)
    (hd : mapLookup t c.drivers = some d)
    (hdup : ∃ p, p ∈ c.networks ∧ p.2.name = n) :
    NewNetwork c t n o g = ((none, some (GoError.networkNameError n)), c, []) := by
  have hany : c.networks.any (fun p => p.2.name = n) = true := by
    rcases hdup with ⟨p, hp, hn⟩
    exact List.any_eq_true.2 ⟨p, hp, by simp [hn]⟩
  simp [NewNetwork, hd, hany]

/-- Witness for C4: creating a second network named net1 fails with the
duplicate name error and changes nothing. -/
theorem newNetwork_duplicateName_witness :
    NewNetwork ⟨[("id1", ⟨"net1", "id1", "null", []⟩)], [("null", nullDriver)], []⟩
        "null" "net1" 0 "id2" =
      ((none, some (GoError.networkNameError "net1")),
       ⟨[("id1", ⟨"net1", "id1", "null", []⟩)], [("null", nullDriver)], []⟩, []) :=
  newNetwork_duplicateName
    ⟨[("id1", ⟨"net1", "id1", "null", []⟩)], [("null", nullDriver)], []⟩
    "null" "net1" 0 "id2" nullDriver rfl
    ⟨("id1", ⟨"net1", "id1", "null", []⟩), by simp, rfl⟩

/-- C5: when the resolved driver CreateNetwork hook fails, NewNetwork
returns that same error unmodified with no network, and the controller
state, in particular the network table, is exactly what it was. -/
theorem newNetwork_driverError (c : Controller) (t n : String) (o : Options)
    (g : UUID) (d : Driver) (e : GoError)
    (hd : mapLookup t c.drivers = some d)
    (hnodup : ∀ p ∈ c.networks, p.2.name ≠ n)
    (he : d.createNetworkRes g o = some e) :
    NewNetwork c t n o g = ((none, some e), c, [Event.createNetworkCalled t g o]) := by
  have hany : c.networks.any (fun p => p.2.name = n) = false := by
    rw [List.any_eq_false]
    intro p hp
    simp [hnodup p hp]
  simp [NewNetwork, hd, hany, he]

/-- Witness for C5: the opaque error of the failing driver is returned
as is and the network table stays empty. -/
theorem newNetwork_driverError_witness :
    NewNetwork ⟨[], [("fail", failDriver)], []⟩ "fail" "net1" 0 "id1" =
      ((none, some (GoError.driverError 9)), ⟨[], [("fail", failDriver)], []⟩,
       [Event.createNetworkCalled "fail" "id1" 0]) :=
  newNetwork_driverError ⟨[], [("fail", failDriver)], []⟩ "fail" "net1" 0 "id1"
    failDriver (GoError.driverError 9) rfl (by simp) rfl

/-- C1 fails on the code: two sandboxAdd calls for key k on a fresh
controller invoke the provider exactly once and both return the same
sandbox, but the stored reference count is 1, not 2 — the increment of
the source is applied to a local copy of the map value and is lost. -/
theorem sandboxAdd_twice_refCnt_stays_one :
    sandboxAddN ⟨[], [], []⟩ "k" (some ⟨0⟩, none) 2 =
      (⟨[], [], [("k", ⟨some ⟨0⟩, 1⟩)]⟩, [Event.newSandboxCalled "k"],
       [(some ⟨0⟩, none), (some ⟨0⟩, none)]) := rfl

/-- C2 fails on the code: after two sandboxAdd calls for key k, already
the FIRST sandboxRm reads the stored refcount 1, decrements its local
copy to 0, calls Destroy and deletes the entry, instead of leaving the
entry present until a second sandboxRm. -/
theorem sandboxRm_first_call_destroys :
    sandboxRm (sandboxAddN ⟨[], [], []⟩ "k" (some ⟨0⟩, none) 2).1 "k" =
      (⟨[], [], []⟩, [Event.destroyCalled (some ⟨0⟩)]) := rfl

/-- A walker that always answers false visits the whole snapshot. -/
theorem walkVisits_false (l : List Network) :
    walkVisits (fun _ => false) l = l := by
  induction l with
  | nil => rfl
  | cons n t ih => simp [walkVisits, ih]

/-- C9: on a controller holding at least one network, WalkNetworks with
a walker that always returns true invokes it on exactly one network, the
first of the snapshot, regardless of how many are registered; with a
walker that always returns false every network of the snapshot is
visited. -/
theorem walkNetworks_spec (c : Controller) (h : Networks c ≠ []) :
    WalkNetworks c (fun _ => true) = (Networks c).take 1 ∧
    (WalkNetworks c (fun _ => true)).length = 1 ∧
    WalkNetworks c (fun _ => false) = Networks c := by
  refine ⟨?_, ?_, ?_⟩
  · cases hn : Networks c with
    | nil => exact absurd hn h
    | cons n t => simp [WalkNetworks, hn, walkVisits]
  · cases hn : Networks c with
    | nil => exact absurd hn h
    | cons n t => simp [WalkNetworks, hn, walkVisits]
  · simp [WalkNetworks, walkVisits_false]

/-- Witness for C9 on a controller with two registered networks. -/
theorem walkNetworks_spec_witness :
    WalkNetworks ⟨[("a", ⟨"n1", "a", "null", []⟩), ("b", ⟨"n2", "b", "null", []⟩)], [], []⟩
        (fun _ => true) =
      (Networks ⟨[("a", ⟨"n1", "a", "null", []⟩), ("b", ⟨"n2", "b", "null", []⟩)], [], []⟩).take 1 ∧
    (WalkNetworks ⟨[("a", ⟨"n1", "a", "null", []⟩), ("b", ⟨"n2", "b", "null", []⟩)], [], []⟩
        (fun _ => true)).length = 1 ∧
    WalkNetworks ⟨[("a", ⟨"n1", "a", "null", []⟩), ("b", ⟨"n2", "b", "null", []⟩)], [], []⟩
        (fun _ => false) =
      Networks ⟨[("a", ⟨"n1", "a", "null", []⟩), ("b", ⟨"n2", "b", "null", []⟩)], [], []⟩ :=
  walkNetworks_spec ⟨[("a", ⟨"n1", "a", "null", []⟩), ("b", ⟨"n2", "b", "null", []⟩)], [], []⟩
    (by decide)

/-- Case analysis of NewNetwork: either it fails, returning no network
and leaving the state untouched, or it succeeds, returning the network
built from its arguments, inserting it at genId, and the name collision
scan was negative. -/
theorem newNetwork_cases (c : Controller) (t n : String) (o : Options) (g : UUID) :
    ((NewNetwork c t n o g).1.1 = none ∧ (NewNetwork c t n o g).2.1 = c) ∨
    ((NewNetwork c t n o g).1.1 = some (⟨n, g, t, []⟩ : Network) ∧
     (NewNetwork c t n o g).2.1 =
       { c with networks := mapInsert g (⟨n, g, t, []⟩ : Network) c.networks } ∧
     c.networks.any (fun p => p.2.name = n) = false) := by
  unfold NewNetwork
  cases hd : mapLookup t c.drivers with
  | none => left; simp
  | some d =>
    by_cases hany : (c.networks.any (fun p => p.2.name = n)) = true
    · left; simp [hany]
    · have hf : c.networks.any (fun p => p.2.name = n) = false := by
        cases hb : c.networks.any (fun p => p.2.name = n)
        · rfl
        · exact absurd hb hany
      cases hcn : d.createNetworkRes g o with
      | some e => left; simp [hf, hcn]
      | none => right; simp [hf, hcn]

/-- C8: Networks is a point in time snapshot.  Its list has exactly the
networks of the table at call time (same length, same members), and a
subsequent successful NewNetwork mutation extends the table so that the
new snapshot is the OLD returned list with the new network appended at
the end: the previously returned list is untouched and in particular
never contains the network added after the call. -/
theorem networks_snapshot (c : Controller) (t n : String) (o : Options) (g : UUID)
    (nw : Network)
    (hfresh : mapLookup g c.networks = none)
    (hsucc : (NewNetwork c t n o g).1.1 = some nw) :
    ((Networks c).length = c.networks.length ∧
      ∀ x : Network, x ∈ Networks c ↔ ∃ id, (id, x) ∈ c.networks) ∧
    Networks (NewNetwork c t n o g).2.1 = Networks c ++ [nw] ∧
    nw ∉ Networks c := by
  rcases newNetwork_cases c t n o g with ⟨hnone, _⟩ | ⟨hsome, hstate, hany⟩
  · rw [hsucc] at hnone
    exact absurd hnone (by simp)
  · rw [hsucc] at hsome
    have hnw : nw = ⟨n, g, t, []⟩ := by
      injection hsome
    refine ⟨⟨List.length_map _ _, fun x => mem_map_snd x c.networks⟩, ?_, ?_⟩
    · rw [hstate]
      show (mapInsert g (⟨n, g, t, []⟩ : Network) c.networks).map Prod.snd = _
      rw [mapInsert_fresh g _ c.networks hfresh, List.map_append, ← hnw]
      rfl
    · intro hmem
      rcases (mem_map_snd nw c.networks).1 hmem with ⟨id, hid⟩
      have : c.networks.any (fun p => p.2.name = n) = true :=
        List.any_eq_true.2 ⟨(id, nw), hid, by simp [hnw]⟩
      rw [this] at hany
      exact absurd hany (by simp)

/-- Witness for C8: after adding net2 to a controller holding net1, the
new snapshot is the old snapshot with net2 appended. -/
theorem networks_snapshot_witness :
    Networks (NewNetwork ⟨[("id1", ⟨"net1", "id1", "null", []⟩)], [("null", nullDriver)], []⟩
        "null" "net2" 0 "id2").2.1 =
      Networks ⟨[("id1", ⟨"net1", "id1", "null", []⟩)], [("null", nullDriver)], []⟩ ++
        [⟨"net2", "id2", "null", []⟩] :=
  (networks_snapshot ⟨[("id1", ⟨"net1", "id1", "null", []⟩)], [("null", nullDriver)], []⟩
    "null" "net2" 0 "id2" ⟨"net2", "id2", "null", []⟩ rfl rfl).2.1

theorem runNN_nil (c : Controller) : runNN c [] = (c, []) := rfl

theorem runNN_cons (c : Controller) (a : NNCall) (L : List NNCall) :
    runNN c (a :: L) =
      ((runNN (NewNetwork c a.networkType a.name a.opts a.genId).2.1 L).1,
       (match (NewNetwork c a.networkType a.name a.opts a.genId).1.1 with
        | some nw => [(nw.id, nw)]
        | none => []) ++
         (runNN (NewNetwork c a.networkType a.name a.opts a.genId).2.1 L).2) := rfl

/-- A NewNetwork call does not change the table entry of any id other
than the one it consumed from the generator. -/
theorem newNetwork_frame_lookup (c : Controller) (t n : String) (o : Options) (g : UUID)
    (id : UUID) (hid : id ≠ g) :
    mapLookup id (NewNetwork c t n o g).2.1.networks = mapLookup id c.networks := by
  rcases newNetwork_cases c t n o g with ⟨_, hstate⟩ | ⟨_, hstate, _⟩
  · rw [hstate]
  · rw [hstate]
    show mapLookup id (mapInsert g (⟨n, g, t, []⟩ : Network) c.networks) = _
    rw [mapLookup_mapInsert, if_neg hid]

/-- Running a trace whose generated ids avoid id leaves the table entry
of id unchanged. -/
theorem runNN_frame (L : List NNCall) (c : Controller) (id : UUID)
    (h : id ∉ L.map NNCall.genId) :
    mapLookup id (runNN c L).1.networks = mapLookup id c.networks := by
  induction L generalizing c with
  | nil => rfl
  | cons a L ih =>
    simp only [List.map_cons, List.mem_cons, not_or] at h
    rw [runNN_cons]
    rw [ih _ h.2]
    exact newNetwork_frame_lookup c a.networkType a.name a.opts a.genId id h.1

/-- Every table entry after a trace is either an entry returned by one
of the successful calls of the trace or an entry of the initial table. -/
theorem runNN_lookup_mem (L : List NNCall) (c : Controller) (id : UUID) (nw : Network)
    (h : mapLookup id (runNN c L).1.networks = some nw) :
    (id, nw) ∈ (runNN c L).2 ∨ mapLookup id c.networks = some nw := by
  induction L generalizing c with
  | nil => right; exact h
  | cons a L ih =>
    rw [runNN_cons] at h ⊢
    rcases ih _ h with hmem | hlook
    · left
      exact List.mem_append.2 (Or.inr hmem)
    · rcases newNetwork_cases c a.networkType a.name a.opts a.genId with
        ⟨_, hstate⟩ | ⟨hsome, hstate, _⟩
      · right
        rw [hstate] at hlook
        exact hlook
      · rw [hstate] at hlook
        have hlook2 : mapLookup id
            (mapInsert a.genId (⟨a.name, a.genId, a.networkType, []⟩ : Network) c.networks) =
            some nw := hlook
        rw [mapLookup_mapInsert] at hlook2
        by_cases hid : id = a.genId
        · rw [if_pos hid] at hlook2
          have hnw : nw = ⟨a.name, a.genId, a.networkType, []⟩ := by
            injection hlook2 with hx
            exact hx.symm
          left
          apply List.mem_append.2
          left
          rw [hsome, hnw, hid]
          simp
        · rw [if_neg hid] at hlook2
          right
          exact hlook2

/-- When the generated ids of a trace are pairwise distinct, every
(id, network) pair returned by a successful call of the trace is still
the table entry of that id at the end of the trace. -/
theorem runNN_mem_rets (L : List NNCall) (c : Controller) (id : UUID) (nw : Network)
    (hnd : (L.map NNCall.genId).Nodup)
    (hmem : (id, nw) ∈ (runNN c L).2) :
    mapLookup id (runNN c L).1.networks = some nw := by
  induction L generalizing c with
  | nil => simp [runNN_nil] at hmem
  | cons a L ih =>
    rw [runNN_cons] at hmem ⊢
    rw [List.map_cons, List.nodup_cons] at hnd
    rcases List.mem_append.1 hmem with hhead | htail
    · rcases newNetwork_cases c a.networkType a.name a.opts a.genId with
        ⟨hnone, _⟩ | ⟨hsome, hstate, _⟩
      · rw [hnone] at hhead
        simp at hhead
      · rw [hsome] at hhead
        simp at hhead
        obtain ⟨hid, hnw⟩ := hhead
        rw [runNN_frame L _ id (by rw [hid]; exact hnd.1)]
        rw [hstate, hid]
        show mapLookup a.genId
          (mapInsert a.genId (⟨a.name, a.genId, a.networkType, []⟩ : Network) c.networks) = _
        rw [mapLookup_mapInsert, if_pos rfl, hnw]
    · exact ih _ hnd.2 htail

/-- C7: starting from a controller with an empty network table and
running any sequence of NewNetwork calls whose generated ids are
pairwise distinct: NetworkByID yields none for every id that no
successful call returned, and yields exactly the returned network value
for every id a successful call did return (no removal operation exists
in the source). -/
theorem networkByID_trace (L : List NNCall) (c0 : Controller)
    (hempty : c0.networks = [])
    (hnd : (L.map NNCall.genId).Nodup) :
    (∀ id : UUID, (∀ nw : Network, (id, nw) ∉ (runNN c0 L).2) →
       NetworkByID (runNN c0 L).1 id = none) ∧
    (∀ id : UUID, ∀ nw : Network, (id, nw) ∈ (runNN c0 L).2 →
       NetworkByID (runNN c0 L).1 id = some nw) := by
  constructor
  · intro id hnone
    show mapLookup id (runNN c0 L).1.networks = none
    cases h : mapLookup id (runNN c0 L).1.networks with
    | none => rfl
    | some nw =>
      rcases runNN_lookup_mem L c0 id nw h with hmem | hlook
      · exact absurd hmem (hnone nw)
      · rw [hempty] at hlook
        exact absurd hlook (by simp [mapLookup])
  · intro id nw hmem
    exact runNN_mem_rets L c0 id nw hnd hmem

/-- Witness for C7: after a two call trace creating net1 and net2, the
id consumed by the first call resolves to exactly the returned net1. -/
theorem networkByID_trace_witness :
    NetworkByID (runNN ⟨[], [("null", nullDriver)], []⟩
        [⟨"null", "net1", 0, "id1"⟩, ⟨"null", "net2", 0, "id2"⟩]).1 "id1" =
      some ⟨"net1", "id1", "null", []⟩ :=
  (networkByID_trace [⟨"null", "net1", 0, "id1"⟩, ⟨"null", "net2", 0, "id2"⟩]
      ⟨[], [("null", nullDriver)], []⟩ rfl (by decide)).2 "id1"
    ⟨"net1", "id1", "null", []⟩ (by decide)

end Libnetwork
